import Mathlib

/-!
Shallow embedding of the conversation-turn controller implemented in
`src/components/voice-agent-panel.tsx` and of the `POST /api/respond` route
handler implemented in `src/app/api/respond/route.ts`.

Modelling conventions:
- JavaScript strings are Lean `String`; `String.prototype.trim` is modelled by
  `jsTrim` (drop Unicode whitespace from both ends of the character list).
- `Array.prototype.slice(-n)` is modelled by `takeLast n`.
- Values supplied by the runtime environment (`crypto.randomUUID`, `Date.now`,
  network responses) are passed in as explicit parameters.
- React semantics: `messagesRef.current` is mutated synchronously inside
  `handleSend`, so the buffer is an ordinary field of the committed state.
  The `isProcessing` value consulted by the guard, however, is the value
  captured by the closure that invokes `handleSend` (a form-submit closure
  from some render, or the `recognition.onresult` handler, which is bound
  once and cached in `recognitionRef`).  The guard value is therefore a
  separate `isProcessingSnapshot` parameter, distinct from the
  `isProcessing` field of the committed state.
- The asynchronous body of `handleSend` is split into `handleSendStart`
  (everything up to and including issuing the fetch) and
  `handleSendComplete` (the continuation run when the fetch settles).
-/

/-- Whitespace test used by the model of `String.prototype.trim`. -/
def isWs (c : Char) : Bool := c.isWhitespace

/-- Both-ends whitespace trim on character lists: drop leading whitespace,
then drop trailing whitespace (implemented by reversing). -/
def trimAux (l : List Char) : List Char :=
  ((l.dropWhile isWs).reverse.dropWhile isWs).reverse

/-- Model of JavaScript `String.prototype.trim`. -/
def jsTrim (s : String) : String := ⟨trimAux s.data⟩

/-- Model of `Array.prototype.slice(-n)`: the trailing window of at most `n`
elements of a list. -/
def takeLast {α : Type} (n : Nat) (l : List α) : List α :=
  l.drop (l.length - n)

/-! ## Client data model (`voice-agent-panel.tsx`) -/

/-- `type Role = "user" | "assistant"` (line 49). -/
inductive Role where
  | user
  | assistant
deriving DecidableEq, Repr

/-- The string a `Role` is serialized as in JSON payloads. -/
def Role.toWire : Role → String
  | .user => "user"
  | .assistant => "assistant"

/-- `type Message` (lines 51-56): one Turn of the History Buffer. -/
structure Message where
  id : String
  role : Role
  content : String
  createdAt : Nat
deriving DecidableEq, Repr

/-- `createMessage` (lines 73-78).  The random suffix produced by `makeId`
and the clock value `Date.now()` are environment inputs `id` and `now`. -/
def createMessage (id : String) (now : Nat) (role : Role) (content : String) :
    Message :=
  { id := role.toWire ++ "-" ++ id
    role := role
    content := content
    createdAt := now }

/-- `const MAX_HISTORY = 12` (line 80). -/
def MAX_HISTORY : Nat := 12

/-- `type RecognitionStatus = "idle" | "initializing" | "listening"` (line 66). -/
inductive RecognitionStatus where
  | idle
  | initializing
  | listening
deriving DecidableEq, Repr

/-- The role/content pair sent on the wire for each history entry
(lines 171-174: `history.map((entry) => ({role, content}))`). -/
structure WireMessage where
  role : Role
  content : String
deriving DecidableEq, Repr

/-- Serialization of a buffer entry for the request body. -/
def Message.toWire (m : Message) : WireMessage :=
  { role := m.role, content := m.content }

/-- The request body built by `handleSend` (lines 169-175). -/
structure SendRequest where
  prompt : String
  history : List WireMessage
deriving DecidableEq, Repr

/-- The component state of `VoiceAgentPanel` relevant to the controller
(lines 83-99).  `synthQueue` models the platform `speechSynthesis` utterance
queue; `speakCalls` records each invocation of the output adapter
`synthSpeak`, whether or not it actually spoke. -/
structure ClientState where
  messages : List Message
  status : RecognitionStatus
  transcript : String
  pendingInput : String
  error : Option String
  isProcessing : Bool
  autoSpeak : Bool
  synthQueue : List String
  speakCalls : List String
deriving DecidableEq, Repr

/-- Initial assistant greeting (lines 84-87). -/
def initialGreeting : String :=
  "Hello! I\x27m your AI receptionist. Tap the microphone or type to tell me how I can help."

/-- The initial component state (lines 83-94): one assistant greeting in the
buffer, idle recognition, auto-speak on, nothing in flight. -/
def initialState (id : String) (now : Nat) : ClientState :=
  { messages := [createMessage id now .assistant initialGreeting]
    status := .idle
    transcript := ""
    pendingInput := ""
    error := none
    isProcessing := false
    autoSpeak := true
    synthQueue := []
    speakCalls := [] }

/-- `window.speechSynthesis.cancel()`: clears the utterance queue. -/
def speechCancel (_queue : List String) : List String := []

/-- `window.speechSynthesis.speak(u)`: enqueues an utterance. -/
def speechEnqueue (queue : List String) (text : String) : List String :=
  queue ++ [text]

/-- `synthSpeak` (lines 129-144), as run in a browser (where `window` is
defined): a no-op unless the user has already interacted with the page
(`speechAllowedRef.current`) and the auto-speak preference is enabled;
otherwise cancels whatever is playing and speaks `text` (fixed rate, pitch
and `en-US` locale; the utterance is modelled by its text). -/
def synthSpeak (speechAllowed autoSpeak : Bool) (queue : List String)
    (text : String) : List String :=
  if !speechAllowed || !autoSpeak then queue
  else speechEnqueue (speechCancel queue) text

/-- The result of the `fetch` to `/api/respond`, as discriminated by
`handleSend` (lines 164-191):
- `ok reply`: `response.ok` and the parsed body had a string `reply` field;
- `okBad`: `response.ok` but the body had no string `reply` field (line 189);
- `httpError status errorField`: `!response.ok`, with `errorField` the
  string `error` field of the parsed body when the body parsed to an object
  carrying one (`none` when parsing failed or the field was absent);
- `exn msg`: the fetch or body parse threw; `msg` is the `Error` message
  (`none` models a thrown non-`Error` value, line 203). -/
inductive FetchResult where
  | ok (reply : String)
  | okBad
  | httpError (status : Nat) (errorField : Option String)
  | exn (msg : Option String)
deriving DecidableEq, Repr

/-- The synchronous prefix of `handleSend` (lines 146-176): trim the input,
silently return when the trimmed input is empty or the in-flight flag
captured by the calling closure is set; otherwise build the user turn,
append it to the buffer under the cap, clear the pending input, interim
transcript and error, set the in-flight flag, and issue the request whose
history is the updated buffer serialized to role/content pairs. -/
def handleSendStart (isProcessingSnapshot : Bool) (st : ClientState)
    (newId : String) (now : Nat) (input : String) :
    ClientState × Option SendRequest :=
  let content := jsTrim input
  if content = "" ∨ isProcessingSnapshot = true then (st, none)
  else
    let userMessage := createMessage newId now .user content
    let history := takeLast MAX_HISTORY (st.messages ++ [userMessage])
    ({ st with
        messages := history
        pendingInput := ""
        transcript := ""
        isProcessing := true
        error := none },
      some { prompt := content, history := history.map Message.toWire })

/-- The continuation of `handleSend` once the fetch settles
(lines 178-207): on success append the assistant turn built from the
trimmed reply under the cap and invoke the output adapter with its content;
on any failure record the error message; in every case clear the in-flight
flag (the `finally` block, line 206). -/
def handleSendComplete (st : ClientState) (speechAllowed : Bool)
    (newId : String) (now : Nat) (result : FetchResult) : ClientState :=
  match result with
  | .ok reply =>
      let assistantMessage := createMessage newId now .assistant (jsTrim reply)
      let nextMessages := takeLast MAX_HISTORY (st.messages ++ [assistantMessage])
      { st with
          messages := nextMessages
          synthQueue := synthSpeak speechAllowed st.autoSpeak st.synthQueue
            assistantMessage.content
          speakCalls := st.speakCalls ++ [assistantMessage.content]
          isProcessing := false }
  | .okBad =>
      { st with error := some "Invalid response from server.", isProcessing := false }
  | .httpError status errorField =>
      let message :=
        match errorField with
        | some e => if e = "" then s!"Request failed ({status})" else e
        | none => s!"Request failed ({status})"
      { st with error := some message, isProcessing := false }
  | .exn m =>
      { st with error := some (m.getD "Failed to reach the server."), isProcessing := false }

/-- `recognition.onstart` (lines 235-239). -/
def recognitionOnStart (st : ClientState) : ClientState :=
  { st with status := .listening, transcript := "", error := none }

/-- `recognition.onerror` (lines 241-244); an empty platform error string
falls back to the fixed message. -/
def recognitionOnError (st : ClientState) (msg : String) : ClientState :=
  { st with
      status := .idle
      error := some (if msg = "" then "Voice recognition error." else msg) }

/-- `recognition.onend` (lines 267-269). -/
def recognitionOnEnd (st : ClientState) : ClientState :=
  { st with status := .idle }

/-- The interim branch of `recognition.onresult` (line 263). -/
def recognitionInterim (st : ClientState) (interimText : String) : ClientState :=
  { st with transcript := jsTrim interimText }

/-- The textarea `onChange` handler (line 377). -/
def typePendingInput (st : ClientState) (v : String) : ClientState :=
  { st with pendingInput := v }

/-- The auto-speak toggle button (line 320). -/
def toggleAutoSpeak (st : ClientState) : ClientState :=
  { st with autoSpeak := !st.autoSpeak }

/-- `handleToggleRecording` entering capture (line 288) / stopping
(line 283) / failing to start (lines 290-295) / unsupported browser
(line 225). -/
def toggleRecordingInit (st : ClientState) : ClientState :=
  { st with status := .initializing }

def toggleRecordingStop (st : ClientState) : ClientState :=
  { st with status := .idle }

def toggleRecordingFail (st : ClientState) (msg : String) : ClientState :=
  { st with status := .idle, error := some msg }

def recognitionUnsupported (st : ClientState) : ClientState :=
  { st with error := some "Voice input is not supported in this browser." }

/-- Messages appended to the buffer by `handleSendStart` (one user turn when
the guard passes, nothing otherwise). -/
def startLogDelta (isProcessingSnapshot : Bool) (newId : String) (now : Nat)
    (input : String) : List Message :=
  if jsTrim input = "" ∨ isProcessingSnapshot = true then []
  else [createMessage newId now .user (jsTrim input)]

/-- Messages appended to the buffer by `handleSendComplete` (one assistant
turn on success, nothing otherwise). -/
def completeLogDelta (newId : String) (now : Nat) : FetchResult → List Message
  | .ok reply => [createMessage newId now .assistant (jsTrim reply)]
  | _ => []

/-- Reachable component states, paired with the full append log of the
History Buffer (every turn ever appended, in order).  Events are the
component's own handlers; `handleSendStart` takes an arbitrary closure
snapshot of the in-flight flag, so interleavings in which the guard reads a
stale value are included. -/
inductive Reachable : ClientState → List Message → Prop where
  | init (id : String) (now : Nat) :
      Reachable (initialState id now) [createMessage id now .assistant initialGreeting]
  | start (st : ClientState) (log : List Message) (snap : Bool) (id : String)
      (now : Nat) (input : String) :
      Reachable st log →
      Reachable (handleSendStart snap st id now input).1
        (log ++ startLogDelta snap id now input)
  | complete (st : ClientState) (log : List Message) (allowed : Bool)
      (id : String) (now : Nat) (result : FetchResult) :
      Reachable st log →
      Reachable (handleSendComplete st allowed id now result)
        (log ++ completeLogDelta id now result)
  | recStart (st : ClientState) (log : List Message) :
      Reachable st log → Reachable (recognitionOnStart st) log
  | recError (st : ClientState) (log : List Message) (msg : String) :
      Reachable st log → Reachable (recognitionOnError st msg) log
  | recEnd (st : ClientState) (log : List Message) :
      Reachable st log → Reachable (recognitionOnEnd st) log
  | interim (st : ClientState) (log : List Message) (t : String) :
      Reachable st log → Reachable (recognitionInterim st t) log
  | typing (st : ClientState) (log : List Message) (v : String) :
      Reachable st log → Reachable (typePendingInput st v) log
  | toggleSpeak (st : ClientState) (log : List Message) :
      Reachable st log → Reachable (toggleAutoSpeak st) log
  | togInit (st : ClientState) (log : List Message) :
      Reachable st log → Reachable (toggleRecordingInit st) log
  | togStop (st : ClientState) (log : List Message) :
      Reachable st log → Reachable (toggleRecordingStop st) log
  | togFail (st : ClientState) (log : List Message) (msg : String) :
      Reachable st log → Reachable (toggleRecordingFail st msg) log
  | unsupported (st : ClientState) (log : List Message) :
      Reachable st log → Reachable (recognitionUnsupported st) log

/-! ## Server data model (`src/app/api/respond/route.ts`) -/

/-- The raw template literal at lines 3-12 of `route.ts` (before the final
`.trim()`). -/
def SYSTEM_PROMPT_RAW : String :=
  "\nYou are \"Clara\", an AI receptionist for a modern workplace. Your goals:\n- Provide warm, professional greetings.\n- Quickly identify caller intent, contact details, and preferred follow-up.\n- Offer clear next steps, including booking meetings, capturing messages, or escalating when needed.\n- Keep responses concise (2-4 sentences) while sounding human and empathetic.\n- Confirm key information back to the caller.\n- If unsure, politely request clarification.\nRespond in plain text without markdown lists unless specifically requested by the caller.\n"

/-- `const SYSTEM_PROMPT = ...trim()` (lines 3-12). -/
def SYSTEM_PROMPT : String := jsTrim SYSTEM_PROMPT_RAW

/-- A raw, untrusted history array element as destructured at line 59:
each field is `none` when absent or not a string.  A `null`/non-object
element of the array is modelled by `none` at the `Option RawItem` layer. -/
structure RawItem where
  role : Option String
  content : Option String
deriving DecidableEq, Repr

/-- A role/content message as assembled for the upstream model. -/
structure ChatMessage where
  role : String
  content : String
deriving DecidableEq, Repr

/-- Validation of one raw history element (lines 55-69): skip `null` items,
keep items whose role is `"user"` or `"assistant"` and whose content is a
string with non-empty trim, storing the trimmed content. -/
def validateEntry : Option RawItem → Option ChatMessage
  | none => none
  | some it =>
      match it.role, it.content with
      | some r, some c =>
          if (r = "user" ∨ r = "assistant") ∧ jsTrim c ≠ "" then
            some { role := r, content := jsTrim c }
          else none
      | _, _ => none

/-- The `conversation` array (lines 51-70): the valid entries among the
last 12 raw history elements (`rawHistory.slice(-12)` is applied before
validation). -/
def buildConversation (rawHistory : List (Option RawItem)) : List ChatMessage :=
  (takeLast 12 rawHistory).filterMap validateEntry

/-- Message assembly for the upstream call (lines 72-80): prepend the fixed
system instruction to `conversation`, then append the (already trimmed)
prompt as a user message unless the last conversation entry is a user entry
whose content equals the prompt. -/
def assembleMessages (prompt : String) (rawHistory : List (Option RawItem)) :
    List ChatMessage :=
  let conversation := buildConversation rawHistory
  let lastMessage := conversation.getLast?
  let messages := { role := "system", content := SYSTEM_PROMPT } :: conversation
  match lastMessage with
  | none => messages ++ [{ role := "user", content := prompt }]
  | some lm =>
      if lm.content ≠ prompt ∨ lm.role ≠ "user" then
        messages ++ [{ role := "user", content := prompt }]
      else messages

/-- The parsed JSON request body (line 33): each field is `none` when
absent or of the wrong type (`prompt` not a string, `history` not an
array). -/
structure ReqBody where
  prompt : Option String
  history : Option (List (Option RawItem))
deriving DecidableEq, Repr

/-- `typeof body.prompt === "string" ? body.prompt.trim() : ""` (line 43). -/
def requestPrompt (b : ReqBody) : String :=
  match b.prompt with
  | some p => jsTrim p
  | none => ""

/-- Outcome of the upstream chat-completion fetch (lines 83-110):
- `ok content`: a 200 response; `content` is
  `payload.choices?.[0]?.message?.content` when that chain yields a string,
  `none` otherwise;
- `httpError status errMessage`: a non-200 response; `errMessage` is the
  upstream body's `error.message` string when present;
- `exn msg`: the fetch (or body parse of a 200 response) threw; `msg` is
  the `Error` message, `none` a thrown non-`Error` value. -/
inductive UpstreamResult where
  | ok (content : Option String)
  | httpError (status : Nat) (errMessage : Option String)
  | exn (msg : Option String)
deriving DecidableEq, Repr

/-- Fallback reply when the upstream returns no content (line 114). -/
def fallbackReply : String :=
  "I\x27m sorry, but I couldn\x27t generate a response right now."

/-- The HTTP response produced by the route handler, plus the messages
forwarded to the upstream model (`none` when no upstream call was
attempted). -/
structure RouteResult where
  status : Nat
  reply : Option String
  error : Option String
  sentMessages : Option (List ChatMessage)
deriving DecidableEq, Repr

/-- The `POST` handler (lines 24-122).  `apiKey` is
`process.env.OPENAI_API_KEY`; `body` is the parsed JSON request body
(`none` when `request.json()` threw); `upstream` is the environment's
answer to the upstream fetch, consumed only on the path that reaches it. -/
def POST (apiKey : Option String) (body : Option ReqBody)
    (upstream : UpstreamResult) : RouteResult :=
  match apiKey with
  | none =>
      { status := 500, reply := none
        error := some "Server misconfigured: missing OpenAI API key."
        sentMessages := none }
  | some _ =>
      match body with
      | none =>
          { status := 400, reply := none, error := some "Invalid JSON body."
            sentMessages := none }
      | some b =>
          let prompt := requestPrompt b
          if prompt = "" then
            { status := 400, reply := none, error := some "Provide a prompt message."
              sentMessages := none }
          else
            let rawHistory := b.history.getD []
            let messages := assembleMessages prompt rawHistory
            match upstream with
            | .httpError status errMessage =>
                let message :=
                  match errMessage with
                  | some m => if m = "" then s!"Upstream model error ({status})." else m
                  | none => s!"Upstream model error ({status})."
                { status := 502, reply := none, error := some message
                  sentMessages := some messages }
            | .exn m =>
                { status := 500, reply := none
                  error := some (m.getD "Unexpected server error.")
                  sentMessages := some messages }
            | .ok content =>
                let reply :=
                  match content with
                  | some c => jsTrim c
                  | none => fallbackReply
                { status := 200, reply := some reply, error := none
                  sentMessages := some messages }

/-- Bridge from a client wire entry to the raw item the server destructures:
the client always sends an object with string `role` and `content` fields
(lines 169-175 of the panel). -/
def wireToRaw (m : WireMessage) : Option RawItem :=
  some { role := some m.role.toWire, content := some m.content }

/-- Modelled from the spec: the history the spec claims is serialized for
the Remote Responder Client, namely the trailing window of at most 12
prior turns excluding the just-added user turn that duplicates the prompt
(spec section 4.4).  Used only to compare the spec's words against
`handleSendStart`. -/
def specRequestHistory (priorMessages : List Message) : List WireMessage :=
  (takeLast MAX_HISTORY priorMessages).map Message.toWire

/-- Modelled from the spec: the history entries the spec claims are
retained server side, namely the last at-most-12 valid history entries
(claim wording for the route handler).  Used only to compare the spec's
words against `buildConversation`. -/
def specLastValidEntries (rawHistory : List (Option RawItem)) : List ChatMessage :=
  takeLast 12 (rawHistory.filterMap validateEntry)

/-- A well-formed raw history element with user role and the given content. -/
def rawValidUser (c : String) : Option RawItem :=
  some { role := some "user", content := some c }

/-- A concrete 13-element raw history: twelve valid entries followed by one
invalid entry (whitespace-only content). -/
def c7RawHistory : List (Option RawItem) :=
  rawValidUser "first" :: List.replicate 11 (rawValidUser "x") ++
    [some { role := some "user", content := some " " }]

/-! ## Helper lemmas about `takeLast` and `jsTrim` -/

theorem takeLast_length_le {α : Type} (n : Nat) (l : List α) :
    (takeLast n l).length ≤ n := by
  simp only [takeLast, List.length_drop]
  omega

theorem takeLast_eq_self {α : Type} {n : Nat} {l : List α} (h : l.length ≤ n) :
    takeLast n l = l := by
  unfold takeLast
  have h0 : l.length - n = 0 := by omega
  rw [h0, List.drop_zero]

theorem takeLast_zero {α : Type} (l : List α) : takeLast 0 l = [] := by
  unfold takeLast
  exact List.drop_eq_nil_of_le (by omega)

theorem takeLast_append {α : Type} (n : Nat) (x y : List α) :
    takeLast n (x ++ y) =
      if n ≤ y.length then takeLast n y else takeLast (n - y.length) x ++ y := by
  unfold takeLast
  rw [List.drop_append_eq_append_drop, List.length_append]
  by_cases h : n ≤ y.length
  · rw [if_pos h]
    rw [List.drop_eq_nil_of_le (by omega)]
    have h2 : x.length + y.length - n - x.length = y.length - n := by omega
    rw [h2, List.nil_append]
  · rw [if_neg h]
    have h2 : x.length + y.length - n - x.length = 0 := by omega
    have h3 : x.length + y.length - n = x.length - (n - y.length) := by omega
    rw [h2, h3, List.drop_zero]

theorem takeLast_takeLast {α : Type} {m n : Nat} (h : m ≤ n) (l : List α) :
    takeLast m (takeLast n l) = takeLast m l := by
  unfold takeLast
  rw [List.length_drop, List.drop_drop]
  congr 1
  omega

theorem takeLast_append_takeLast {α : Type} (n : Nat) (l r : List α) :
    takeLast n (takeLast n l ++ r) = takeLast n (l ++ r) := by
  rw [takeLast_append, takeLast_append]
  split
  · rfl
  · rw [takeLast_takeLast (by omega)]

theorem takeLast_append_of_le {α : Type} {n : Nat} (x y : List α)
    (h : y.length ≤ n) :
    takeLast n (x ++ y) = takeLast (n - y.length) x ++ y := by
  rw [takeLast_append]
  split
  · next h2 =>
    have hy : takeLast n y = y := takeLast_eq_self (by omega)
    have h0 : n - y.length = 0 := by omega
    rw [hy, h0, takeLast_zero, List.nil_append]
  · rfl

theorem takeLast_concat_getLast? {α : Type} {n : Nat} (h : 1 ≤ n)
    (l : List α) (a : α) :
    (takeLast n (l ++ [a])).getLast? = some a := by
  rw [takeLast_append_of_le _ _ (by simpa using h)]
  exact List.getLast?_concat _

theorem dropWhile_head?_false {α : Type} (p : α → Bool) (l : List α) (a : α)
    (h : (l.dropWhile p).head? = some a) : p a = false := by
  induction l with
  | nil => simp [List.dropWhile] at h
  | cons b t ih =>
    rw [List.dropWhile_cons] at h
    split at h
    · exact ih h
    · next hb =>
      simp only [List.head?_cons, Option.some.injEq] at h
      subst h
      simp at hb
      exact hb

theorem dropWhile_eq_self_of_head? {α : Type} (p : α → Bool) (l : List α)
    (h : ∀ a, l.head? = some a → p a = false) :
    l.dropWhile p = l := by
  cases l with
  | nil => rfl
  | cons b t =>
    rw [List.dropWhile_cons, h b rfl]
    simp

theorem dropWhile_idem {α : Type} (p : α → Bool) (l : List α) :
    (l.dropWhile p).dropWhile p = l.dropWhile p :=
  dropWhile_eq_self_of_head? p _ (fun a h => dropWhile_head?_false p l a h)

theorem dropWhile_suffix {α : Type} (p : α → Bool) (l : List α) :
    ∃ t, t ++ l.dropWhile p = l := by
  induction l with
  | nil => exact ⟨[], rfl⟩
  | cons b t ih =>
    rw [List.dropWhile_cons]
    split
    · obtain ⟨u, hu⟩ := ih
      exact ⟨b :: u, by simp [hu]⟩
    · exact ⟨[], rfl⟩

theorem trimAux_idem (l : List Char) : trimAux (trimAux l) = trimAux l := by
  have h1 : (((l.dropWhile isWs).reverse.dropWhile isWs).reverse).dropWhile isWs
      = ((l.dropWhile isWs).reverse.dropWhile isWs).reverse := by
    apply dropWhile_eq_self_of_head?
    intro a ha
    rw [List.head?_reverse] at ha
    obtain ⟨t, ht⟩ := dropWhile_suffix isWs (l.dropWhile isWs).reverse
    have h2 : ((l.dropWhile isWs).reverse).getLast? = some a := by
      rw [← ht, List.getLast?_append, ha]
      rfl
    rw [List.getLast?_reverse] at h2
    exact dropWhile_head?_false isWs l a h2
  unfold trimAux
  rw [h1, List.reverse_reverse, dropWhile_idem]

theorem jsTrim_idem (s : String) : jsTrim (jsTrim s) = jsTrim s := by
  unfold jsTrim
  exact congrArg (fun l => (⟨l⟩ : String)) (trimAux_idem s.data)

theorem getLast?_eq_some_imp {α : Type} {l : List α} {a : α}
    (h : l.getLast? = some a) : ∃ t, l = t ++ [a] :=
  List.getLast?_eq_some_iff.mp h

/-! ## Claim C1 -/

/-- Claim C1: for every sequence of submit (`handleSend`) calls and their
completions (interleaved with the other component events), the History
Buffer never contains more than 12 turns, and its contents are always the
trailing window of the full append log — the most recently appended turns,
in the order they were appended, the oldest evicted first. -/
theorem c1_history_buffer_invariant (st : ClientState) (log : List Message)
    (h : Reachable st log) :
    st.messages.length ≤ MAX_HISTORY ∧ st.messages = takeLast MAX_HISTORY log := by
  have key : st.messages = takeLast MAX_HISTORY log := by
    induction h with
    | init id now => rfl
    | start st log snap id now input _ ih =>
        by_cases hc : jsTrim input = "" ∨ snap = true
        · simp [handleSendStart, startLogDelta, hc, ih]
        · simp [handleSendStart, startLogDelta, hc, ih, takeLast_append_takeLast]
    | complete st log allowed id now result _ ih =>
        cases result with
        | ok reply =>
            simp [handleSendComplete, completeLogDelta, ih, takeLast_append_takeLast]
        | okBad => simpa [handleSendComplete, completeLogDelta] using ih
        | httpError s e => simpa [handleSendComplete, completeLogDelta] using ih
        | exn m => simpa [handleSendComplete, completeLogDelta] using ih
    | recStart st log _ ih => simpa [recognitionOnStart] using ih
    | recError st log msg _ ih => simpa [recognitionOnError] using ih
    | recEnd st log _ ih => simpa [recognitionOnEnd] using ih
    | interim st log t _ ih => simpa [recognitionInterim] using ih
    | typing st log v _ ih => simpa [typePendingInput] using ih
    | toggleSpeak st log _ ih => simpa [toggleAutoSpeak] using ih
    | togInit st log _ ih => simpa [toggleRecordingInit] using ih
    | togStop st log _ ih => simpa [toggleRecordingStop] using ih
    | togFail st log msg _ ih => simpa [toggleRecordingFail] using ih
    | unsupported st log _ ih => simpa [recognitionUnsupported] using ih
  exact ⟨key ▸ takeLast_length_le MAX_HISTORY log, key⟩

/-- Witness for C1: the invariant evaluated on a concrete trace of one
submit after the initial greeting. -/
theorem c1_history_buffer_witness :
    ((handleSendStart false (initialState "g" 0) "u" 1 "hi").1).messages.length ≤
        MAX_HISTORY ∧
    ((handleSendStart false (initialState "g" 0) "u" 1 "hi").1).messages =
      takeLast MAX_HISTORY
        ([createMessage "g" 0 .assistant initialGreeting] ++
          startLogDelta false "u" 1 "hi") :=
  c1_history_buffer_invariant _ _
    (Reachable.start _ _ false "u" 1 "hi" (Reachable.init "g" 0))

/-! ## Claim C2 -/

/-- Claim C2 counterexample: a final recognition event submits
`"book a tour"` and, in the same tick (before the first call's state
updates are observed, so both closures carry an in-flight snapshot of
`false`), a manual form submission submits the same text.  Contrary to the
claim, TWO user Turns with that content are appended to the History Buffer
and a second network request is issued: the code has no content-based
deduplication check, and the in-flight guard reads the stale snapshot. -/
theorem c2_same_tick_double_append :
    ((handleSendStart false
        (handleSendStart false (initialState "g" 0) "u1" 1 "book a tour").1
        "u2" 1 "book a tour").1.messages.filter
          (fun m => m.role == Role.user && m.content == "book a tour")).length = 2 ∧
    ((handleSendStart false
        (handleSendStart false (initialState "g" 0) "u1" 1 "book a tour").1
        "u2" 1 "book a tour").2).isSome = true := by
  decide

/-- Claim C2 (amended): there is no deduplication check, and two submits
racing in the same tick each append a user Turn (see the counterexample);
what does hold is the rest of the invariant: whenever `handleSend` issues a
remote call, the last entry appended to the buffer before that call is a
user Turn whose content equals the outgoing prompt exactly. -/
theorem c2_last_append_matches_prompt (snap : Bool) (st : ClientState)
    (id : String) (now : Nat) (input : String) (st1 : ClientState)
    (req : SendRequest)
    (h : handleSendStart snap st id now input = (st1, some req)) :
    req.prompt = jsTrim input ∧
    st1.messages.getLast? = some (createMessage id now .user req.prompt) := by
  simp only [handleSendStart] at h
  split at h
  · exact absurd (congrArg Prod.snd h) (by simp)
  · injection h with ha hb
    injection hb with hb
    subst ha
    subst hb
    refine ⟨rfl, ?_⟩
    exact takeLast_concat_getLast? (by norm_num [MAX_HISTORY]) st.messages _

/-- Witness for C2 (amended) at a concrete submit. -/
theorem c2_last_append_matches_prompt_witness :
    ((handleSendStart false (initialState "g" 0) "u" 1 "book a tour").1).messages.getLast? =
      some (createMessage "u" 1 .user "book a tour") := by
  have h := c2_last_append_matches_prompt false (initialState "g" 0) "u" 1
      "book a tour"
      ((handleSendStart false (initialState "g" 0) "u" 1 "book a tour").1)
      { prompt := "book a tour"
        history := [{ role := .assistant, content := initialGreeting },
                    { role := .user, content := "book a tour" }] }
      (by decide)
  exact h.2

/-! ## Claim C3 -/

/-- Claim C3, evaluated at the failing input: `handleSend` invoked through a
closure whose in-flight snapshot is stale (the `recognition.onresult`
handler is bound once and cached in `recognitionRef`, so it forever carries
the `isProcessing` value of the render that created it) is NOT a no-op even
though a previous call is still in flight: the committed state has
`isProcessing = true`, yet the second call appends a user Turn and issues a
second network request.  The empty-trim part of the claim and the
observed-flag part do hold and are visible in `handleSendStart`'s guard;
the bug is that the guard reads the stale snapshot. -/
theorem c3_inflight_guard_bypass :
    ((handleSendStart false (initialState "g" 0) "u1" 1 "book a tour").1).isProcessing
        = true ∧
    (handleSendStart false
        (handleSendStart false (initialState "g" 0) "u1" 1 "book a tour").1
        "u2" 2 "hello").1.messages ≠
      ((handleSendStart false (initialState "g" 0) "u1" 1 "book a tour").1).messages ∧
    (handleSendStart false
        (handleSendStart false (initialState "g" 0) "u1" 1 "book a tour").1
        "u2" 2 "hello").2 =
      some { prompt := "hello"
             history := [{ role := .assistant, content := initialGreeting },
                         { role := .user, content := "book a tour" },
                         { role := .user, content := "hello" }] } := by
  decide

/-! ## Claim C4 -/

/-- Claim C4: when the remote call fails with a non-OK response whose body
carries a non-empty error string, the completion leaves the whole state
unchanged except for recording exactly that error string and clearing the
in-flight flag — in particular the previously appended user Turn remains
in the buffer and no assistant Turn is appended. -/
theorem c4_failure_preserves_buffer (st : ClientState) (allowed : Bool)
    (id : String) (now status : Nat) (e : String) (he : e ≠ "") :
    handleSendComplete st allowed id now (.httpError status (some e)) =
      { st with error := some e, isProcessing := false } := by
  simp [handleSendComplete, he]

/-- Witness for C4: a 500 response with body error string "boom". -/
theorem c4_failure_witness :
    handleSendComplete (initialState "g" 0) true "a" 2 (.httpError 500 (some "boom")) =
      { initialState "g" 0 with error := some "boom", isProcessing := false } :=
  c4_failure_preserves_buffer _ _ _ _ _ _ (by decide)

/-! ## Claim C5 -/

/-- Claim C5: when the remote call succeeds with reply `r`, exactly one
assistant Turn whose content is the trimmed `r` is appended (with the cap
re-applied) immediately after the last buffered turn — the triggering user
Turn — the Speech Output Adapter is invoked with that reply text, and the
in-flight flag is cleared. -/
theorem c5_success_appends_assistant (st : ClientState) (allowed : Bool)
    (id : String) (now : Nat) (reply : String) :
    (handleSendComplete st allowed id now (.ok reply)).messages =
      takeLast MAX_HISTORY
        (st.messages ++ [createMessage id now .assistant (jsTrim reply)]) ∧
    (handleSendComplete st allowed id now (.ok reply)).speakCalls =
      st.speakCalls ++ [jsTrim reply] ∧
    (handleSendComplete st allowed id now (.ok reply)).isProcessing = false ∧
    ∀ u, st.messages.getLast? = some u →
      (handleSendComplete st allowed id now (.ok reply)).messages.getLast? =
          some (createMessage id now .assistant (jsTrim reply)) ∧
      (handleSendComplete st allowed id now (.ok reply)).messages.dropLast.getLast? =
          some u := by
  refine ⟨rfl, rfl, rfl, ?_⟩
  intro u hu
  obtain ⟨t, ht⟩ := getLast?_eq_some_imp hu
  have hm : (handleSendComplete st allowed id now (.ok reply)).messages =
      (takeLast (MAX_HISTORY - 2) t ++ [u]) ++
        [createMessage id now .assistant (jsTrim reply)] := by
    show takeLast MAX_HISTORY
        (st.messages ++ [createMessage id now .assistant (jsTrim reply)]) = _
    rw [ht, List.append_assoc]
    rw [takeLast_append_of_le _ _ (by simp [MAX_HISTORY])]
    simp [MAX_HISTORY]
  rw [hm]
  constructor
  · exact List.getLast?_concat _
  · rw [List.dropLast_concat]
    exact List.getLast?_concat _

/-- Witness for C5: a successful reply `" Hello "` after a submit of
`"hi"`; the assistant Turn with trimmed content lands right after the user
Turn, the adapter is invoked, and the flag clears. -/
theorem c5_success_witness :
    (handleSendComplete (handleSendStart false (initialState "g" 0) "u" 1 "hi").1
        true "a" 2 (.ok " Hello ")).messages.getLast? =
      some (createMessage "a" 2 .assistant (jsTrim " Hello ")) ∧
    (handleSendComplete (handleSendStart false (initialState "g" 0) "u" 1 "hi").1
        true "a" 2 (.ok " Hello ")).messages.dropLast.getLast? =
      some (createMessage "u" 1 .user "hi") ∧
    (handleSendComplete (handleSendStart false (initialState "g" 0) "u" 1 "hi").1
        true "a" 2 (.ok " Hello ")).speakCalls = [jsTrim " Hello "] ∧
    (handleSendComplete (handleSendStart false (initialState "g" 0) "u" 1 "hi").1
        true "a" 2 (.ok " Hello ")).isProcessing = false := by
  have h := c5_success_appends_assistant
      (handleSendStart false (initialState "g" 0) "u" 1 "hi").1 true "a" 2 " Hello "
  have h4 := h.2.2.2 (createMessage "u" 1 .user "hi") (by decide)
  exact ⟨h4.1, h4.2, h.2.1, h.2.2.1⟩

/-! ## Claim C6 -/

/-- Claim C6 counterexample: at a concrete submit of `"hi"` from the
initial state, the history serialized into the request INCLUDES the
just-added user turn duplicating the prompt as its last entry; it is not
the spec's claimed window of prior turns excluding that duplicate. -/
theorem c6_history_includes_prompt_duplicate :
    (handleSendStart false (initialState "g" 0) "u" 1 "hi").2 =
      some { prompt := "hi"
             history := [{ role := .assistant, content := initialGreeting },
                         { role := .user, content := "hi" }] } ∧
    ([{ role := .assistant, content := initialGreeting },
      { role := .user, content := "hi" }] : List WireMessage) ≠
      specRequestHistory (initialState "g" 0).messages := by
  decide

/-- Claim C6 (amended): the history serialized into the request is the
trailing window of at most 12 turns of the buffer INCLUDING the just-added
user turn, which is its last entry and duplicates the prompt; the server's
collaborator appends the prompt only when it is not already the last
retained history entry, so for a request produced by `handleSend` it does
not append it again. -/
theorem c6_request_history_window (snap : Bool) (st : ClientState)
    (id : String) (now : Nat) (input : String) (st1 : ClientState)
    (req : SendRequest)
    (h : handleSendStart snap st id now input = (st1, some req)) :
    req.history =
      (takeLast MAX_HISTORY
        (st.messages ++ [createMessage id now .user (jsTrim input)])).map
        Message.toWire ∧
    req.history.getLast? = some { role := .user, content := req.prompt } ∧
    assembleMessages (jsTrim req.prompt) (req.history.map wireToRaw) =
      { role := "system", content := SYSTEM_PROMPT } ::
        buildConversation (req.history.map wireToRaw) := by
  simp only [handleSendStart] at h
  split at h
  · exact absurd (congrArg Prod.snd h) (by simp)
  · next hc =>
    injection h with ha hb
    injection hb with hb
    subst ha
    have hne : jsTrim input ≠ "" := fun he => hc (Or.inl he)
    have hidem : jsTrim (jsTrim input) = jsTrim input := jsTrim_idem input
    have hp : req.prompt = jsTrim input := (congrArg SendRequest.prompt hb).symm
    have hh : req.history =
        (takeLast MAX_HISTORY
          (st.messages ++ [createMessage id now .user (jsTrim input)])).map
          Message.toWire := (congrArg SendRequest.history hb).symm
    have hsplit : req.history =
        (takeLast (MAX_HISTORY - 1) st.messages).map Message.toWire ++
          [{ role := .user, content := jsTrim input }] := by
      rw [hh, takeLast_append_of_le _ _ (by simp [MAX_HISTORY]), List.map_append]
      rfl
    have hlen : (req.history.map wireToRaw).length ≤ 12 := by
      rw [hsplit]
      simp only [List.length_map, List.length_append, List.length_cons,
        List.length_nil]
      have := takeLast_length_le (MAX_HISTORY - 1) st.messages
      simp [MAX_HISTORY] at this ⊢
      omega
    have hval : validateEntry (wireToRaw { role := .user, content := jsTrim input }) =
        some { role := "user", content := jsTrim input } := by
      simp [validateEntry, wireToRaw, Role.toWire, hidem, hne]
    have hconv : buildConversation (req.history.map wireToRaw) =
        List.filterMap validateEntry
            (((takeLast (MAX_HISTORY - 1) st.messages).map Message.toWire).map
              wireToRaw) ++
          [{ role := "user", content := jsTrim input }] := by
      unfold buildConversation
      rw [takeLast_eq_self hlen, hsplit, List.map_append, List.filterMap_append]
      simp [hval]
    refine ⟨hh, ?_, ?_⟩
    · rw [hsplit, List.getLast?_concat, hp]
    · rw [hp, hidem]
      unfold assembleMessages
      rw [hconv]
      simp [List.getLast?_concat]

/-- Witness for C6 (amended): at a concrete request, the server-side
assembly does not append the prompt a second time. -/
theorem c6_request_history_window_witness :
    assembleMessages (jsTrim "hi")
        (List.map wireToRaw
          [WireMessage.mk .assistant initialGreeting, WireMessage.mk .user "hi"]) =
      { role := "system", content := SYSTEM_PROMPT } ::
        buildConversation
          (List.map wireToRaw
            [WireMessage.mk .assistant initialGreeting, WireMessage.mk .user "hi"]) := by
  have h := c6_request_history_window false (initialState "g" 0) "u" 1 "hi"
      ((handleSendStart false (initialState "g" 0) "u" 1 "hi").1)
      { prompt := "hi"
        history := [{ role := .assistant, content := initialGreeting },
                    { role := .user, content := "hi" }] }
      (by decide)
  exact h.2.2

/-! ## Claim C7 -/

/-- Claim C7 counterexample: on a 13-element raw history whose first twelve
elements are valid and whose last is invalid, the handler retains the valid
entries among the last 12 RAW elements (11 of them), not the last
at-most-12 VALID entries (12 of them), so the assembled message list has 13
messages where the claim predicts 14. -/
theorem c7_window_before_validation_counterexample :
    (buildConversation c7RawHistory).length = 11 ∧
    (specLastValidEntries c7RawHistory).length = 12 ∧
    buildConversation c7RawHistory ≠ specLastValidEntries c7RawHistory ∧
    (assembleMessages "q" c7RawHistory).length = 13 ∧
    (ChatMessage.mk "system" SYSTEM_PROMPT ::
        specLastValidEntries c7RawHistory ++
        [ChatMessage.mk "user" "q"]).length = 14 := by
  decide

/-- Claim C7 (amended): the server prepends the fixed system instruction,
then the VALID entries among the last at-most-12 raw history entries (role
`user` or `assistant`, non-empty trimmed content, content trimmed), and
appends the prompt as a final user message if and only if the last retained
entry is not a user entry whose content equals the (already trimmed)
prompt; when the upstream returns no content, the reply is the fixed
fallback apology string. -/
theorem c7_server_message_assembly (p : String) (raw : List (Option RawItem)) :
    (assembleMessages p raw).head? =
        some { role := "system", content := SYSTEM_PROMPT } ∧
    (buildConversation raw).length ≤ 12 ∧
    (∀ m ∈ buildConversation raw,
      (m.role = "user" ∨ m.role = "assistant") ∧
        jsTrim m.content = m.content ∧ m.content ≠ "") ∧
    assembleMessages p raw =
      { role := "system", content := SYSTEM_PROMPT } :: buildConversation raw ++
        (if (buildConversation raw).getLast? = some { role := "user", content := p }
          then [] else [{ role := "user", content := p }]) ∧
    (∀ (key : String) (b : ReqBody), requestPrompt b ≠ "" →
      (POST (some key) (some b) (.ok none)).reply = some fallbackReply) := by
  have hassm : assembleMessages p raw =
      { role := "system", content := SYSTEM_PROMPT } :: buildConversation raw ++
        (if (buildConversation raw).getLast? = some { role := "user", content := p }
          then [] else [{ role := "user", content := p }]) := by
    cases hl : (buildConversation raw).getLast? with
    | none => simp [assembleMessages, hl]
    | some lm =>
        by_cases he : lm = { role := "user", content := p }
        · subst he
          simp [assembleMessages, hl]
        · have hcode : lm.content ≠ p ∨ lm.role ≠ "user" := by
            rcases lm with ⟨r, c⟩
            by_cases hr : r = "user"
            · subst hr
              left
              intro hcc
              have hc2 : c = p := hcc
              exact he (by rw [hc2])
            · right
              simpa using hr
          simp [assembleMessages, hl, hcode, he]
  refine ⟨?_, ?_, ?_, hassm, ?_⟩
  · rw [hassm]
    rfl
  · unfold buildConversation
    exact le_trans (List.length_filterMap_le _ _) (takeLast_length_le _ _)
  · intro m hm
    unfold buildConversation at hm
    rw [List.mem_filterMap] at hm
    obtain ⟨x, _, hx⟩ := hm
    cases x with
    | none => simp [validateEntry] at hx
    | some it =>
        cases hr : it.role with
        | none => simp [validateEntry, hr] at hx
        | some r =>
            cases hcc : it.content with
            | none => simp [validateEntry, hr, hcc] at hx
            | some c =>
                simp only [validateEntry, hr, hcc] at hx
                split at hx
                · next hcond =>
                    injection hx with hx
                    subst hx
                    exact ⟨hcond.1, jsTrim_idem c, hcond.2⟩
                · cases hx
  · intro key b hb
    simp [POST, hb]

/-- Witness for C7 (amended): the fallback-apology clause evaluated at a
concrete valid request whose upstream returned no content. -/
theorem c7_server_message_assembly_witness :
    (POST (some "k") (some { prompt := some "hi", history := none })
        (.ok none)).reply = some fallbackReply :=
  (c7_server_message_assembly "q" []).2.2.2.2 "k"
    { prompt := some "hi", history := none } (by decide)

/-! ## Claim C8 -/

/-- Claim C8: the handler always returns a structured response — status 400
with an error body for malformed JSON or an empty trimmed prompt (given the
key is configured, which the code checks first), status 500 for a missing
API key or an unexpected failure, status 502 when the upstream call
returns non-200, and status 200 with a reply otherwise; it never raises
for these expected failure conditions. -/
theorem c8_route_status_codes (apiKey : Option String) (body : Option ReqBody)
    (up : UpstreamResult) :
    ((POST apiKey body up).status = 200 ∨ (POST apiKey body up).status = 400 ∨
      (POST apiKey body up).status = 500 ∨ (POST apiKey body up).status = 502) ∧
    ((POST apiKey body up).status = 200 →
      (POST apiKey body up).reply.isSome = true ∧
        (POST apiKey body up).error = none) ∧
    ((POST apiKey body up).status ≠ 200 →
      (POST apiKey body up).error.isSome = true ∧
        (POST apiKey body up).reply = none) ∧
    (apiKey = none → (POST apiKey body up).status = 500 ∧
      (POST apiKey body up).sentMessages = none) ∧
    (apiKey.isSome = true → body = none → (POST apiKey body up).status = 400 ∧
      (POST apiKey body up).sentMessages = none) ∧
    (∀ b, body = some b → apiKey.isSome = true → requestPrompt b = "" →
      (POST apiKey body up).status = 400 ∧
        (POST apiKey body up).sentMessages = none) ∧
    (∀ b, body = some b → apiKey.isSome = true → requestPrompt b ≠ "" →
      ((∀ s e, up = .httpError s e → (POST apiKey body up).status = 502) ∧
        (∀ c, up = .ok c → (POST apiKey body up).status = 200) ∧
        (∀ m, up = .exn m → (POST apiKey body up).status = 500))) := by
  cases apiKey with
  | none => simp [POST]
  | some k =>
      cases body with
      | none => simp [POST]
      | some b =>
          by_cases hp : requestPrompt b = ""
          · simp [POST, hp]
          · cases up with
            | ok c => simp [POST, hp]
            | httpError s e => simp [POST, hp]
            | exn m => simp [POST, hp]

/-- Witness for C8: a missing API key yields a 500 with an error body. -/
theorem c8_route_status_codes_witness :
    (POST none none (.ok none)).status = 500 ∧
      (POST none none (.ok none)).sentMessages = none :=
  (c8_route_status_codes none none (.ok none)).2.2.2.1 rfl

/-! ## Claim C9 -/

/-- Claim C9: `synthSpeak` is a no-op unless the user has interacted with
the page at least once and the auto-speak preference is enabled; when both
hold it cancels any currently playing utterance before starting a new one
for the text, so the last call wins and nothing is queued. -/
theorem c9_speak_gating (speechAllowed autoSpeakPref : Bool)
    (queue : List String) (text : String) :
    (speechAllowed = false ∨ autoSpeakPref = false →
      synthSpeak speechAllowed autoSpeakPref queue text = queue) ∧
    (speechAllowed = true → autoSpeakPref = true →
      synthSpeak speechAllowed autoSpeakPref queue text = [text]) := by
  cases speechAllowed <;> cases autoSpeakPref <;>
    simp [synthSpeak, speechCancel, speechEnqueue]

/-- Witness for C9: with interaction recorded and auto-speak on, a playing
utterance is cancelled and replaced by the new one. -/
theorem c9_speak_gating_witness :
    synthSpeak true true ["old utterance"] "Hello" = ["Hello"] :=
  (c9_speak_gating true true ["old utterance"] "Hello").2 rfl rfl

/-! ## Claim C10 -/

/-- Claim C10: every non-no-op `handleSend` clears the pending input and
interim transcript and sets the in-flight flag; every completion path —
success, error response, bad body, or thrown exception — resets the
in-flight flag to `false` and leaves the cleared pending input and
transcript cleared (they are not restored on failure). -/
theorem c10_inflight_always_cleared (snap : Bool) (st : ClientState)
    (id : String) (now : Nat) (input : String) (st1 : ClientState)
    (req : SendRequest)
    (h : handleSendStart snap st id now input = (st1, some req)) :
    st1.isProcessing = true ∧ st1.pendingInput = "" ∧ st1.transcript = "" ∧
    ∀ (allowed : Bool) (id2 : String) (now2 : Nat) (result : FetchResult),
      (handleSendComplete st1 allowed id2 now2 result).isProcessing = false ∧
      (handleSendComplete st1 allowed id2 now2 result).pendingInput = "" ∧
      (handleSendComplete st1 allowed id2 now2 result).transcript = "" := by
  simp only [handleSendStart] at h
  split at h
  · exact absurd (congrArg Prod.snd h) (by simp)
  · injection h with ha _hb
    subst ha
    refine ⟨rfl, rfl, rfl, ?_⟩
    intro allowed id2 now2 result
    cases result <;> simp [handleSendComplete]

/-- Witness for C10: a concrete turn that fails with a network exception
still ends with the in-flight flag cleared and the inputs left cleared. -/
theorem c10_inflight_always_cleared_witness :
    (handleSendComplete (handleSendStart false (initialState "g" 0) "u" 1 "hi").1
        true "a" 2 (.exn none)).isProcessing = false ∧
    (handleSendComplete (handleSendStart false (initialState "g" 0) "u" 1 "hi").1
        true "a" 2 (.exn none)).pendingInput = "" ∧
    (handleSendComplete (handleSendStart false (initialState "g" 0) "u" 1 "hi").1
        true "a" 2 (.exn none)).transcript = "" := by
  have h := c10_inflight_always_cleared false (initialState "g" 0) "u" 1 "hi"
      ((handleSendStart false (initialState "g" 0) "u" 1 "hi").1)
      { prompt := "hi"
        history := [{ role := .assistant, content := initialGreeting },
                    { role := .user, content := "hi" }] }
      (by decide)
  exact h.2.2.2 true "a" 2 (.exn none)
